import Mathlib

/-!
Verification of the VM lifecycle orchestration of `src/cpanel/server.js`
(an Express control panel that shells out to virsh / qemu-img / virt-install).

The embedding models each `execAsync(cmd)` call as one event appended to a
command trace. The outside world (hypervisor, filesystem, random source) is an
explicit environment `Env`:
  * `Env.exec` gives each shell command its outcome (resolved stdout/stderr, or
    a rejection carrying `error.message`), mirroring node's promisified `exec`;
  * `Env.cloudImageExists` is the `fs.existsSync(cloudImage)` probe;
  * `Env.random n` is the n-th `Math.random()` draw, represented by its
    numerator k over 2^52 (doubles of the form k / 2^52 in [0,1)).
`fs.writeFileSync` calls are filesystem writes, not shell commands; they emit
no trace event (the written domain XML is modelled by `simpleVMDomainXml`).
Each JS async function becomes a Lean function returning
`Except String α × List Cmd`: the commands it issued, in order, and either its
result or the message of the error it threw.
-/

/-- Outcome of one `execAsync` call: either the promise resolves with
`{stdout, stderr}` or it rejects with an error whose `.message` is kept. -/
inductive ExecOut where
  | success (stdout stderr : String)
  | failure (message : String)
deriving DecidableEq, Repr

/-- The shell commands `server.js` issues in the VM lifecycle handlers, one
constructor per template string in the source, carrying its variable parts. -/
inductive Cmd where
  | mkdirP (dir : String)
  | wget (dst : String)
  | cp (src dst : String)
  | qemuImgResize (path : String) (sizeGB : Nat)
  | genisoimage (dir : String)
  | virtInstall (name : String) (memory cpus : Nat) (diskPath isoPath : String)
  | virshNetList
  | virshNetDefine (file : String)
  | virshNetStart (net : String)
  | virshNetAutostart (net : String)
  | rmF (path : String)
  | qemuImgCreate (path : String) (sizeGB : Nat)
  | virshDefine (file : String)
  | virshDestroy (name : String)
  | virshUndefine (name : String)
  | virshDo (action name : String)
deriving DecidableEq, Repr

/-- The exact shell string of each command, as interpolated in `server.js`. -/
def Cmd.render : Cmd → String
  | .mkdirP dir => "mkdir -p " ++ dir
  | .wget dst =>
      "wget -O " ++ dst ++
      " https://cloud-images.ubuntu.com/releases/22.04/release/ubuntu-22.04-server-cloudimg-amd64.img"
  | .cp src dst => "cp " ++ src ++ " " ++ dst
  | .qemuImgResize path sizeGB => "qemu-img resize " ++ path ++ " " ++ toString sizeGB ++ "G"
  | .genisoimage dir =>
      "genisoimage -output " ++ dir ++ ".iso -volid cidata -joliet -rock " ++
      dir ++ "/user-data " ++ dir ++ "/meta-data"
  | .virtInstall name memory cpus diskPath isoPath =>
      "virt-install --name " ++ name ++ " --memory " ++ toString memory ++
      " --vcpus " ++ toString cpus ++ " --disk path=" ++ diskPath ++
      ",format=qcow2 --disk path=" ++ isoPath ++
      ",device=cdrom --network network=default --graphics vnc --noautoconsole --import --os-variant ubuntu22.04"
  | .virshNetList => "virsh net-list --all"
  | .virshNetDefine file => "virsh net-define " ++ file
  | .virshNetStart net => "virsh net-start " ++ net
  | .virshNetAutostart net => "virsh net-autostart " ++ net
  | .rmF path => "rm -f " ++ path
  | .qemuImgCreate path sizeGB =>
      "qemu-img create -f qcow2 " ++ path ++ " " ++ toString sizeGB ++ "G"
  | .virshDefine file => "virsh define " ++ file
  | .virshDestroy name => "virsh destroy " ++ name ++ " 2>/dev/null || true"
  | .virshUndefine name => "virsh undefine " ++ name
  | .virshDo action name => "virsh " ++ action ++ " " ++ name

/-- The world outside the process, fixed for one request. -/
structure Env where
  exec : Cmd → ExecOut
  cloudImageExists : Bool
  random : Nat → Nat

/-- An HTTP response of the VM handlers: `res.json {message}`,
`res.status(400).json {error}`, or `res.status(500).json {error}`. -/
inductive Resp where
  | ok (message : String)
  | badRequest (error : String)
  | serverError (error : String)
deriving DecidableEq, Repr

/-- `sub` is a leading run of the character list. -/
def charsLead : List Char → List Char → Bool
  | [], _ => true
  | _ :: _, [] => false
  | a :: as, b :: bs => a == b && charsLead as bs

/-- Some suffix of the character list has `sub` as a leading run. -/
def charsHave (sub : List Char) : List Char → Bool
  | [] => charsLead sub []
  | c :: cs => charsLead sub (c :: cs) || charsHave sub cs

/-- JS `s.includes(sub)`: `sub` occurs as a contiguous substring of `s`. -/
def jsIncludes (s sub : String) : Bool := charsHave sub.data s.data

deriving instance DecidableEq for Except

/-- A computation that issued some commands and either produced a value or
threw (a JS async function body up to its first uncaught error). -/
abbrev ExecRes (α : Type) : Type := Except String α × List Cmd

/-- Sequencing of two steps: on an error the second never runs (the JS `await`
chain aborts); on success traces concatenate in program order. -/
def bindE {α β : Type} (r : ExecRes α) (k : α → ExecRes β) : ExecRes β :=
  match r with
  | (Except.error m, t) => (Except.error m, t)
  | (Except.ok a, t) =>
      match k a with
      | (r2, t2) => (r2, t ++ t2)

/-- One `await execAsync(cmd)`: the command is issued (hence traced) and its
outcome is the environment's answer. -/
def run (env : Env) (c : Cmd) : ExecRes (String × String) :=
  match env.exec c with
  | ExecOut.success o e => (Except.ok (o, e), [c])
  | ExecOut.failure m => (Except.error m, [c])

/-- `true` when `env` lets command `c` succeed. -/
def execOk (env : Env) (c : Cmd) : Bool :=
  match env.exec c with
  | ExecOut.success _ _ => true
  | ExecOut.failure _ => false

def cloudImagePath : String := "/var/lib/libvirt/images/cloud-images/"

def cloudImage : String := cloudImagePath ++ "ubuntu-22.04-server-cloudimg-amd64.img"

def netXmlFile : String := "/tmp/default-network.xml"

def cloudInitDir (name : String) : String := "/var/lib/libvirt/images/" ++ name ++ "-cloud-init"

/-- The per-VM disk path both creation strategies and the delete handler
compute: backtick-template `/var/lib/libvirt/images/NAME.qcow2`. -/
def vmDiskPath (name : String) : String := "/var/lib/libvirt/images/" ++ name ++ ".qcow2"

/-- The `try` block of `ensureDefaultNetwork` (server.js:407-436): list all
networks; when the output lacks the substring "default", write the static
network XML and register it, then delete the temp file; finally start the
network unconditionally. -/
def ednTry (env : Env) : ExecRes Unit :=
  bindE (run env Cmd.virshNetList) fun ne =>
  bindE (if jsIncludes ne.1 "default" then (Except.ok (), ([] : List Cmd))
         else
           bindE (run env (Cmd.virshNetDefine netXmlFile)) fun _ =>
           bindE (run env (Cmd.rmF netXmlFile)) fun _ => (Except.ok (), []))
    fun _ =>
  bindE (run env (Cmd.virshNetStart "default")) fun _ => (Except.ok (), [])

/-- The `catch` block of `ensureDefaultNetwork` (server.js:438-448): the
alternative setup, autostart then start. -/
def ednCatch (env : Env) : ExecRes Unit :=
  bindE (run env (Cmd.virshNetAutostart "default")) fun _ =>
  bindE (run env (Cmd.virshNetStart "default")) fun _ => (Except.ok (), [])

/-- `ensureDefaultNetwork` (server.js:406-449): try the main setup; on any
error run the alternative, and when that also fails throw
"Failed to setup default network". -/
def ensureDefaultNetwork (env : Env) : ExecRes Unit :=
  match ednTry env with
  | (Except.ok _, t) => (Except.ok (), t)
  | (Except.error _, t) =>
      match ednCatch env with
      | (Except.ok _, t2) => (Except.ok (), t ++ t2)
      | (Except.error _, t2) => (Except.error "Failed to setup default network", t ++ t2)

/-- The cloud-image download step of `createVMWithCloudImage`
(server.js:351-355): skipped when `fs.existsSync(cloudImage)` holds. -/
def wgetStep (env : Env) : ExecRes Unit :=
  if env.cloudImageExists then (Except.ok (), [])
  else bindE (run env (Cmd.wget cloudImage)) fun _ => (Except.ok (), [])

/-- `createVMWithCloudImage` (server.js:341-404): mkdir the image cache,
ensure the default network, download the base image if missing, copy it to
the per-VM path, resize it, mkdir the cloud-init dir, write user-data and
meta-data (filesystem writes, untraced), build the seed ISO, and import the
VM with virt-install. -/
def createVMWithCloudImage (env : Env) (name : String) (memory cpus diskSize : Nat)
    (vmPath : String) : ExecRes Unit :=
  bindE (run env (Cmd.mkdirP cloudImagePath)) fun _ =>
  bindE (ensureDefaultNetwork env) fun _ =>
  bindE (wgetStep env) fun _ =>
  bindE (run env (Cmd.cp cloudImage vmPath)) fun _ =>
  bindE (run env (Cmd.qemuImgResize vmPath diskSize)) fun _ =>
  bindE (run env (Cmd.mkdirP (cloudInitDir name))) fun _ =>
  bindE (run env (Cmd.genisoimage (cloudInitDir name))) fun _ =>
  bindE (run env (Cmd.virtInstall name memory cpus vmPath (cloudInitDir name ++ ".iso")))
    fun _ => (Except.ok (), [])

/-- Hex digit character as JS prints it (lowercase). -/
def hexDigitChar (n : Nat) : Char :=
  if n < 10 then Char.ofNat (48 + n) else Char.ofNat (87 + n)

/-- The 13 base-16 fraction digits of k / 2^52, most significant first. -/
def hexFracDigits (k : Nat) : List Char :=
  (List.range 13).map fun i => hexDigitChar (k / 16 ^ (12 - i) % 16)

def stripTrailingZeros (l : List Char) : List Char :=
  (l.reverse.dropWhile fun c => c == '0').reverse

/-- JS `Number.prototype.toString(16)` for a `Math.random()` result k / 2^52
in [0,1): "0" for zero, otherwise "0." followed by the exact base-16 fraction
digits with trailing zeros omitted (so 0.5 prints as "0.8"). -/
def jsRandToHex (k : Nat) : String :=
  if k == 0 then "0"
  else String.mk ('0' :: '.' :: stripTrailingZeros (hexFracDigits k))

/-- JS `s.substr(start, len)`. -/
def jsSubstr (s : String) (start len : Nat) : String :=
  String.mk ((s.data.drop start).take len)

/-- One MAC octet as server.js:484 computes it from a `Math.random()` draw k:
`Math.random().toString(16).substr(2, 2)`. -/
def macOctet (k : Nat) : String := jsSubstr (jsRandToHex k) 2 2

/-- The interpolated MAC address of server.js:484. -/
def macAddress (r0 r1 r2 : Nat) : String :=
  "52:54:00:" ++ macOctet r0 ++ ":" ++ macOctet r1 ++ ":" ++ macOctet r2

/-- The domain XML `createSimpleVM` writes to `/tmp/NAME.xml`
(server.js:456-505), with the three `Math.random()` draws r0 r1 r2. -/
def simpleVMDomainXml (name : String) (memory cpus : Nat) (vmPath : String)
    (r0 r1 r2 : Nat) : String :=
  "<?xml version='1.0' encoding='utf-8'?>\n<domain type='kvm'>\n  <name>" ++ name ++
  "</name>\n  <memory unit='KiB'>" ++ toString (memory * 1024) ++
  "</memory>\n  <currentMemory unit='KiB'>" ++ toString (memory * 1024) ++
  "</currentMemory>\n  <vcpu placement='static'>" ++ toString cpus ++
  "</vcpu>\n  <os>\n    <type arch='x86_64' machine='pc-q35-6.2'>hvm</type>\n    <boot dev='hd'/>\n  </os>\n" ++
  "  <features>\n    <acpi/>\n    <apic/>\n  </features>\n  <cpu mode='host-passthrough' check='none'/>\n" ++
  "  <clock offset='utc'/>\n  <on_poweroff>destroy</on_poweroff>\n  <on_reboot>restart</on_reboot>\n  <on_crash>destroy</on_crash>\n" ++
  "  <devices>\n    <emulator>/usr/bin/qemu-system-x86_64</emulator>\n    <disk type='file' device='disk'>\n" ++
  "      <driver name='qemu' type='qcow2'/>\n      <source file='" ++ vmPath ++
  "'/>\n      <target dev='vda' bus='virtio'/>\n      <address type='pci' domain='0x0000' bus='0x04' slot='0x00' function='0x0'/>\n" ++
  "    </disk>\n    <interface type='network'>\n      <mac address='" ++ macAddress r0 r1 r2 ++
  "'/>\n      <source network='default'/>\n      <model type='virtio'/>\n      <address type='pci' domain='0x0000' bus='0x01' slot='0x00' function='0x0'/>\n" ++
  "    </interface>\n    <serial type='pty'>\n      <target type='isa-serial' port='0'>\n        <model name='isa-serial'/>\n      </target>\n    </serial>\n" ++
  "    <console type='pty'>\n      <target type='serial' port='0'/>\n    </console>\n" ++
  "    <graphics type='vnc' port='-1' autoport='yes' listen='0.0.0.0'>\n      <listen type='address' address='0.0.0.0'/>\n    </graphics>\n" ++
  "    <video>\n      <model type='qxl' ram='65536' vram='65536' vgamem='16384' heads='1' primary='yes'/>\n" ++
  "      <address type='pci' domain='0x0000' bus='0x00' slot='0x01' function='0x0'/>\n    </video>\n  </devices>\n</domain>"

/-- `createSimpleVM` (server.js:451-521): ensure the default network, create a
blank qcow2 disk of the requested size, write the domain XML to a temp file
(filesystem write, untraced; its content is `simpleVMDomainXml`), register the
domain with virsh define, and delete the temp file. -/
def createSimpleVM (env : Env) (name : String) (memory cpus diskSize : Nat)
    (vmPath : String) : ExecRes Unit :=
  bindE (ensureDefaultNetwork env) fun _ =>
  bindE (run env (Cmd.qemuImgCreate vmPath diskSize)) fun _ =>
  bindE (run env (Cmd.virshDefine ("/tmp/" ++ name ++ ".xml"))) fun _ =>
  bindE (run env (Cmd.rmF ("/tmp/" ++ name ++ ".xml"))) fun _ => (Except.ok (), [])

/-- The POST /api/vms/create handler (server.js:311-339): try the cloud-image
strategy; on any error fall back to `createSimpleVM` with the same arguments;
a fallback error is returned as a 500 with its message. -/
def createVMHandler (env : Env) (name : String) (memory cpus diskSize : Nat) :
    Resp × List Cmd :=
  match createVMWithCloudImage env name memory cpus diskSize (vmDiskPath name) with
  | (Except.ok _, t) => (Resp.ok ("VM " ++ name ++ " created successfully"), t)
  | (Except.error _, t) =>
      match createSimpleVM env name memory cpus diskSize (vmDiskPath name) with
      | (Except.ok _, t2) => (Resp.ok ("VM " ++ name ++ " created successfully"), t ++ t2)
      | (Except.error m, t2) => (Resp.serverError m, t ++ t2)

/-- The DELETE /api/vms/:vmName handler (server.js:523-541). The force-stop is
the composite shell command `virsh destroy NAME 2>/dev/null || true`, whose
trailing `|| true` makes its exit status 0 whatever virsh does, so the step
always succeeds and the handler proceeds; an undefine or rm failure is caught
and returned as a 500 with its message, aborting the remaining steps. -/
def deleteVMHandler (env : Env) (vmName : String) : Resp × List Cmd :=
  let t0 : List Cmd := [Cmd.virshDestroy vmName]
  match env.exec (Cmd.virshUndefine vmName) with
  | ExecOut.failure m => (Resp.serverError m, t0 ++ [Cmd.virshUndefine vmName])
  | ExecOut.success _ _ =>
      let t1 := t0 ++ [Cmd.virshUndefine vmName]
      match env.exec (Cmd.rmF (vmDiskPath vmName)) with
      | ExecOut.failure m => (Resp.serverError m, t1 ++ [Cmd.rmF (vmDiskPath vmName)])
      | ExecOut.success _ _ =>
          (Resp.ok ("VM " ++ vmName ++ " deleted successfully"),
           t1 ++ [Cmd.rmF (vmDiskPath vmName)])

def validActions : List String := ["start", "stop", "shutdown", "reboot", "suspend", "resume"]

/-- The POST /api/vms/:vmName/:action handler (server.js:289-309): reject
unknown actions with 400 before any command; otherwise run `virsh ACTION NAME`
and treat a nonempty stderr lacking all of "Domain"/"started"/"stopped" as a
failure thrown with the stderr text. -/
def vmActionHandler (env : Env) (vmName action : String) : Resp × List Cmd :=
  if validActions.contains action then
    match env.exec (Cmd.virshDo action vmName) with
    | ExecOut.failure m => (Resp.serverError m, [Cmd.virshDo action vmName])
    | ExecOut.success _ stderr =>
        if stderr != "" && !jsIncludes stderr "Domain" && !jsIncludes stderr "started" &&
            !jsIncludes stderr "stopped" then
          (Resp.serverError stderr, [Cmd.virshDo action vmName])
        else
          (Resp.ok ("VM " ++ vmName ++ " " ++ action ++ "ed successfully"),
           [Cmd.virshDo action vmName])
  else (Resp.badRequest "Invalid action", [])

/-- Disk-provisioning commands: the cloud-image copy, the disk resize, and the
blank qcow2 creation. -/
def isDiskProv : Cmd → Bool
  | Cmd.cp _ _ => true
  | Cmd.qemuImgResize _ _ => true
  | Cmd.qemuImgCreate _ _ => true
  | _ => false

/-- Domain-definition and VM-import commands: virsh define and virt-install. -/
def isDomDef : Cmd → Bool
  | Cmd.virshDefine _ => true
  | Cmd.virtInstall _ _ _ _ _ => true
  | _ => false

def isNetStart : Cmd → Bool
  | Cmd.virshNetStart _ => true
  | _ => false

def isNetDefine : Cmd → Bool
  | Cmd.virshNetDefine _ => true
  | _ => false

def isRmF : Cmd → Bool
  | Cmd.rmF _ => true
  | _ => false

def isDiskCopy : Cmd → Bool
  | Cmd.cp _ _ => true
  | _ => false

def isDiskResize : Cmd → Bool
  | Cmd.qemuImgResize _ _ => true
  | _ => false

def isIsoBuild : Cmd → Bool
  | Cmd.genisoimage _ => true
  | _ => false

def isVmImport : Cmd → Bool
  | Cmd.virtInstall _ _ _ _ _ => true
  | _ => false

/-- In trace `t`, some disk-provisioning command strictly precedes every
domain-definition / VM-import command. -/
def Ordered (t : List Cmd) : Prop :=
  ∀ j, (h : j < t.length) → isDomDef t[j] = true → ∃ c ∈ t.take j, isDiskProv c = true

lemma ordered_of_no_domDef {t : List Cmd} (h : ∀ c ∈ t, isDomDef c = false) :
    Ordered t := by
  intro j hj hdom
  rw [h _ (List.getElem_mem hj)] at hdom
  cases hdom

lemma ordered_append {a b : List Cmd} (ha : Ordered a) (hb : Ordered b) :
    Ordered (a ++ b) := by
  intro j hj hdom
  rcases Nat.lt_or_ge j a.length with h | h
  · rw [List.getElem_append_left h] at hdom
    obtain ⟨c, hc, hp⟩ := ha j h hdom
    refine ⟨c, ?_, hp⟩
    rw [List.take_append_of_le_length (Nat.le_of_lt h)]
    exact hc
  · rw [List.getElem_append_right h] at hdom
    have hj' : j - a.length < b.length := by
      have h2 := hj
      rw [List.length_append] at h2
      omega
    obtain ⟨c, hc, hp⟩ := hb (j - a.length) hj' hdom
    refine ⟨c, ?_, hp⟩
    have hsplit : j = a.length + (j - a.length) := by omega
    rw [hsplit, List.take_append]
    exact List.mem_append_right _ hc

lemma ordered_append_left_disk {a : List Cmd} (b : List Cmd) (ha : Ordered a)
    (hd : ∃ c ∈ a, isDiskProv c = true) : Ordered (a ++ b) := by
  intro j hj hdom
  rcases Nat.lt_or_ge j a.length with h | h
  · rw [List.getElem_append_left h] at hdom
    obtain ⟨c, hc, hp⟩ := ha j h hdom
    refine ⟨c, ?_, hp⟩
    rw [List.take_append_of_le_length (Nat.le_of_lt h)]
    exact hc
  · obtain ⟨c, hc, hp⟩ := hd
    refine ⟨c, ?_, hp⟩
    have hsplit : j = a.length + (j - a.length) := by omega
    rw [hsplit, List.take_append]
    exact List.mem_append_left _ hc

/-- The trace of a sequenced step: the first part's commands, then (when it
succeeded) the continuation's. -/
lemma bindE_trace {α β : Type} (r : ExecRes α) (k : α → ExecRes β) :
    (bindE r k).2 = r.2 ++ (match r.1 with
      | Except.error _ => []
      | Except.ok a => (k a).2) := by
  rcases r with ⟨r, t⟩
  cases r <;> simp [bindE]

lemma bindE_fst {α β : Type} (r : ExecRes α) (k : α → ExecRes β) :
    (bindE r k).1 = (match r.1 with
      | Except.error m => Except.error m
      | Except.ok a => (k a).1) := by
  rcases r with ⟨r, t⟩
  cases r <;> simp [bindE]

lemma run_trace (env : Env) (c : Cmd) : (run env c).2 = [c] := by
  unfold run
  cases env.exec c <;> rfl

/-- The commands `ensureDefaultNetwork` can issue. -/
def ednAllowed : List Cmd :=
  [Cmd.virshNetList, Cmd.virshNetDefine netXmlFile, Cmd.rmF netXmlFile,
   Cmd.virshNetStart "default", Cmd.virshNetAutostart "default"]

lemma ednTry_mem (env : Env) : ∀ c ∈ (ednTry env).2, c ∈ ednAllowed := by
  intro c hc
  unfold ednTry at hc
  repeat' first
    | split at hc
    | simp only [bindE_trace, bindE_fst, run_trace, List.mem_append] at hc
  all_goals try simp_all [ednAllowed]
  all_goals tauto

lemma ednCatch_mem (env : Env) : ∀ c ∈ (ednCatch env).2, c ∈ ednAllowed := by
  intro c hc
  unfold ednCatch at hc
  repeat' first
    | split at hc
    | simp only [bindE_trace, bindE_fst, run_trace, List.mem_append] at hc
  all_goals try simp_all [ednAllowed]
  all_goals tauto

lemma edn_mem (env : Env) : ∀ c ∈ (ensureDefaultNetwork env).2, c ∈ ednAllowed := by
  intro c hc
  unfold ensureDefaultNetwork at hc
  rcases hT : ednTry env with ⟨rT, tT⟩
  rw [hT] at hc
  have hTm : ∀ x ∈ tT, x ∈ ednAllowed := by
    intro x hx
    exact ednTry_mem env x (by rw [hT]; exact hx)
  have hCm : ∀ x ∈ (ednCatch env).2, x ∈ ednAllowed := ednCatch_mem env
  cases rT with
  | ok _ => exact hTm c hc
  | error _ =>
      rcases hC : ednCatch env with ⟨rC, tC⟩
      rw [hC] at hc
      have hCm' : ∀ x ∈ tC, x ∈ ednAllowed := by
        intro x hx
        exact hCm x (by rw [hC]; exact hx)
      cases rC with
      | ok _ =>
          rcases List.mem_append.mp hc with h | h
          · exact hTm c h
          · exact hCm' c h
      | error _ =>
          rcases List.mem_append.mp hc with h | h
          · exact hTm c h
          · exact hCm' c h

lemma ednAllowed_no_domDef : ∀ c ∈ ednAllowed, isDomDef c = false := by decide

lemma ednAllowed_no_diskProv : ∀ c ∈ ednAllowed, isDiskProv c = false := by decide

/-- The commands `createVMWithCloudImage` can issue. -/
def cvciAllowed (name : String) (memory cpus diskSize : Nat) (vmPath : String) : List Cmd :=
  Cmd.mkdirP cloudImagePath :: Cmd.wget cloudImage :: Cmd.cp cloudImage vmPath ::
  Cmd.qemuImgResize vmPath diskSize :: Cmd.mkdirP (cloudInitDir name) ::
  Cmd.genisoimage (cloudInitDir name) ::
  Cmd.virtInstall name memory cpus vmPath (cloudInitDir name ++ ".iso") :: ednAllowed

lemma wgetStep_mem (env : Env) : ∀ c ∈ (wgetStep env).2, c = Cmd.wget cloudImage := by
  intro c hc
  unfold wgetStep at hc
  repeat' first
    | split at hc
    | simp only [bindE_trace, bindE_fst, run_trace, List.mem_append] at hc
  all_goals simp_all

/-- Commands of a sequenced step stay inside a set that covers both parts. -/
lemma bindE_subset {α β : Type} {S : List Cmd} (r : ExecRes α) (k : α → ExecRes β)
    (hr : ∀ c ∈ r.2, c ∈ S) (hk : ∀ a, ∀ c ∈ (k a).2, c ∈ S) :
    ∀ c ∈ (bindE r k).2, c ∈ S := by
  intro c hc
  rw [bindE_trace] at hc
  rcases List.mem_append.mp hc with h | h
  · exact hr c h
  · rcases hr1 : r.1 with m | a
    · rw [hr1] at h
      cases h
    · rw [hr1] at h
      exact hk a c h

lemma cvci_mem (env : Env) (name : String) (memory cpus diskSize : Nat) (vmPath : String) :
    ∀ c ∈ (createVMWithCloudImage env name memory cpus diskSize vmPath).2,
      c ∈ cvciAllowed name memory cpus diskSize vmPath := by
  unfold createVMWithCloudImage
  refine bindE_subset _ _ ?_ fun _ => ?_
  · intro c hc
    rw [run_trace] at hc
    simp at hc
    simp [hc, cvciAllowed]
  refine bindE_subset _ _ ?_ fun _ => ?_
  · intro c hc
    have h := edn_mem env c hc
    simp [ednAllowed] at h
    simp [cvciAllowed, ednAllowed]
    tauto
  refine bindE_subset _ _ ?_ fun _ => ?_
  · intro c hc
    rw [wgetStep_mem env c hc]
    simp [cvciAllowed]
  refine bindE_subset _ _ ?_ fun _ => ?_
  · intro c hc
    rw [run_trace] at hc
    simp at hc
    simp [hc, cvciAllowed]
  refine bindE_subset _ _ ?_ fun _ => ?_
  · intro c hc
    rw [run_trace] at hc
    simp at hc
    simp [hc, cvciAllowed]
  refine bindE_subset _ _ ?_ fun _ => ?_
  · intro c hc
    rw [run_trace] at hc
    simp at hc
    simp [hc, cvciAllowed]
  refine bindE_subset _ _ ?_ fun _ => ?_
  · intro c hc
    rw [run_trace] at hc
    simp at hc
    simp [hc, cvciAllowed]
  refine bindE_subset _ _ ?_ fun _ => ?_
  · intro c hc
    rw [run_trace] at hc
    simp at hc
    simp [hc, cvciAllowed]
  intro c hc
  cases hc

/-- The commands `createSimpleVM` can issue. -/
def simpleAllowed (name : String) (diskSize : Nat) (vmPath : String) : List Cmd :=
  Cmd.qemuImgCreate vmPath diskSize :: Cmd.virshDefine ("/tmp/" ++ name ++ ".xml") ::
  Cmd.rmF ("/tmp/" ++ name ++ ".xml") :: ednAllowed

lemma simple_mem (env : Env) (name : String) (memory cpus diskSize : Nat) (vmPath : String) :
    ∀ c ∈ (createSimpleVM env name memory cpus diskSize vmPath).2,
      c ∈ simpleAllowed name diskSize vmPath := by
  unfold createSimpleVM
  refine bindE_subset _ _ ?_ fun _ => ?_
  · intro c hc
    have h := edn_mem env c hc
    simp [ednAllowed] at h
    simp [simpleAllowed, ednAllowed]
    tauto
  refine bindE_subset _ _ ?_ fun _ => ?_
  · intro c hc
    rw [run_trace] at hc
    simp at hc
    simp [hc, simpleAllowed]
  refine bindE_subset _ _ ?_ fun _ => ?_
  · intro c hc
    rw [run_trace] at hc
    simp at hc
    simp [hc, simpleAllowed]
  refine bindE_subset _ _ ?_ fun _ => ?_
  · intro c hc
    rw [run_trace] at hc
    simp at hc
    simp [hc, simpleAllowed]
  intro c hc
  cases hc

lemma cvci_ordered (env : Env) (name : String) (memory cpus diskSize : Nat) (vmPath : String) :
    Ordered (createVMWithCloudImage env name memory cpus diskSize vmPath).2 := by
  unfold createVMWithCloudImage
  rw [bindE_trace, run_trace]
  cases hM : (run env (Cmd.mkdirP cloudImagePath)).1 with
  | error m =>
      simp only
      refine ordered_of_no_domDef ?_
      intro c hc
      simp at hc
      simp [hc, isDomDef]
  | ok a =>
      simp only
      rw [bindE_trace]
      cases hE : (ensureDefaultNetwork env).1 with
      | error m =>
          simp only
          refine ordered_of_no_domDef ?_
          intro c hc
          simp at hc
          rcases hc with h | h
          · simp [h, isDomDef]
          · exact ednAllowed_no_domDef c (edn_mem env c h)
      | ok a2 =>
          simp only
          rw [bindE_trace]
          cases hwg : (wgetStep env).1 with
          | error m =>
              simp only
              refine ordered_of_no_domDef ?_
              intro c hc
              simp at hc
              rcases hc with h | h | h
              · simp [h, isDomDef]
              · exact ednAllowed_no_domDef c (edn_mem env c h)
              · rw [wgetStep_mem env c h]; rfl
          | ok a3 =>
              simp only
              rw [bindE_trace, run_trace]
              have h1 : Ordered ([Cmd.mkdirP cloudImagePath] ++ ((ensureDefaultNetwork env).2 ++
                  ((wgetStep env).2 ++ [Cmd.cp cloudImage vmPath]))) := by
                refine ordered_of_no_domDef ?_
                intro c hc
                simp at hc
                rcases hc with h | h | h | h
                · simp [h, isDomDef]
                · exact ednAllowed_no_domDef c (edn_mem env c h)
                · rw [wgetStep_mem env c h]; rfl
                · simp [h, isDomDef]
              have h2 : ∃ c ∈ [Cmd.mkdirP cloudImagePath] ++ ((ensureDefaultNetwork env).2 ++
                  ((wgetStep env).2 ++ [Cmd.cp cloudImage vmPath])), isDiskProv c = true := by
                refine ⟨Cmd.cp cloudImage vmPath, ?_, rfl⟩
                simp
              rw [← List.append_assoc, ← List.append_assoc, ← List.append_assoc]
              refine ordered_append_left_disk _ ?_ ?_
              · simpa [List.append_assoc] using h1
              · simpa [List.append_assoc] using h2

lemma simple_ordered (env : Env) (name : String) (memory cpus diskSize : Nat) (vmPath : String) :
    Ordered (createSimpleVM env name memory cpus diskSize vmPath).2 := by
  unfold createSimpleVM
  rw [bindE_trace]
  cases hE : (ensureDefaultNetwork env).1 with
  | error m =>
      simp only
      refine ordered_of_no_domDef ?_
      intro c hc
      simp at hc
      exact ednAllowed_no_domDef c (edn_mem env c hc)
  | ok a =>
      simp only
      rw [bindE_trace, run_trace]
      have h1 : Ordered ((ensureDefaultNetwork env).2 ++ [Cmd.qemuImgCreate vmPath diskSize]) := by
        refine ordered_of_no_domDef ?_
        intro c hc
        simp at hc
        rcases hc with h | h
        · exact ednAllowed_no_domDef c (edn_mem env c h)
        · simp [h, isDomDef]
      have h2 : ∃ c ∈ (ensureDefaultNetwork env).2 ++ [Cmd.qemuImgCreate vmPath diskSize],
          isDiskProv c = true := by
        refine ⟨Cmd.qemuImgCreate vmPath diskSize, ?_, rfl⟩
        simp
      rw [← List.append_assoc]
      exact ordered_append_left_disk _ h1 h2

lemma run_of_ok {env : Env} {c : Cmd} (h : execOk env c = true) :
    ∃ o e, run env c = (Except.ok (o, e), [c]) := by
  unfold execOk at h
  unfold run
  cases hx : env.exec c with
  | success o e => exact ⟨o, e, rfl⟩
  | failure m =>
      rw [hx] at h
      simp at h

/-- When the net-list output contains "default", the try block issues exactly
the list query and one start, its result being the start's outcome. -/
lemma ednTry_of_contains (env : Env) (o e : String)
    (hlist : env.exec Cmd.virshNetList = ExecOut.success o e)
    (hd : jsIncludes o "default" = true) :
    ednTry env = ((match env.exec (Cmd.virshNetStart "default") with
      | ExecOut.success _ _ => Except.ok ()
      | ExecOut.failure m => Except.error m),
      [Cmd.virshNetList, Cmd.virshNetStart "default"]) := by
  cases hs : env.exec (Cmd.virshNetStart "default") <;>
    simp [ednTry, run, bindE, hlist, hd, hs]

lemma ednCatch_mem2 (env : Env) : ∀ c ∈ (ednCatch env).2,
    c = Cmd.virshNetAutostart "default" ∨ c = Cmd.virshNetStart "default" := by
  intro c hc
  unfold ednCatch at hc
  repeat' first
    | split at hc
    | simp only [bindE_trace, bindE_fst, run_trace, List.mem_append] at hc
  all_goals simp_all

/-- When the net-list output contains "default", `ensureDefaultNetwork` issues
only the list query, start and autostart commands. -/
lemma edn_no_define_of_contains (env : Env) (o e : String)
    (hlist : env.exec Cmd.virshNetList = ExecOut.success o e)
    (hd : jsIncludes o "default" = true) :
    ∀ c ∈ (ensureDefaultNetwork env).2,
      c = Cmd.virshNetList ∨ c = Cmd.virshNetStart "default" ∨
      c = Cmd.virshNetAutostart "default" := by
  intro c hc
  unfold ensureDefaultNetwork at hc
  rw [ednTry_of_contains env o e hlist hd] at hc
  cases hs : env.exec (Cmd.virshNetStart "default") with
  | success o2 e2 =>
      rw [hs] at hc
      simp at hc
      tauto
  | failure m =>
      rw [hs] at hc
      rcases hC : ednCatch env with ⟨rC, tC⟩
      rw [hC] at hc
      have hCm : ∀ x ∈ tC, x = Cmd.virshNetAutostart "default" ∨
          x = Cmd.virshNetStart "default" := by
        intro x hx
        exact ednCatch_mem2 env x (by rw [hC]; exact hx)
      cases rC with
      | ok _ =>
          simp at hc
          rcases hc with h | h | h
          · tauto
          · tauto
          · have := hCm c h
            tauto
      | error _ =>
          simp at hc
          rcases hc with h | h | h
          · tauto
          · tauto
          · have := hCm c h
            tauto

/-- When the net-list output lacks "default", the try block issues the
net-define command. -/
lemma ednTry_define (env : Env) (o e : String)
    (hlist : env.exec Cmd.virshNetList = ExecOut.success o e)
    (hd : jsIncludes o "default" = false) :
    Cmd.virshNetDefine netXmlFile ∈ (ednTry env).2 := by
  cases hD : env.exec (Cmd.virshNetDefine netXmlFile) with
  | success o2 e2 =>
      cases hR : env.exec (Cmd.rmF netXmlFile) with
      | success o3 e3 =>
          cases hS : env.exec (Cmd.virshNetStart "default") <;>
            simp [ednTry, run, bindE, hlist, hd, hD, hR, hS]
      | failure m => simp [ednTry, run, bindE, hlist, hd, hD, hR]
  | failure m => simp [ednTry, run, bindE, hlist, hd, hD]

lemma edn_define_of_not_contains (env : Env) (o e : String)
    (hlist : env.exec Cmd.virshNetList = ExecOut.success o e)
    (hd : jsIncludes o "default" = false) :
    Cmd.virshNetDefine netXmlFile ∈ (ensureDefaultNetwork env).2 := by
  have hT := ednTry_define env o e hlist hd
  unfold ensureDefaultNetwork
  rcases hTr : ednTry env with ⟨rT, tT⟩
  rw [hTr] at hT
  cases rT with
  | ok _ => exact hT
  | error _ =>
      rcases hC : ednCatch env with ⟨rC, tC⟩
      cases rC <;> exact List.mem_append_left _ hT

/-- When the net-list output contains "default" and net-start succeeds, the
network setup succeeds after exactly the list query and one start. -/
lemma edn_ok_when_active (env : Env) (o e : String)
    (hlist : env.exec Cmd.virshNetList = ExecOut.success o e)
    (hd : jsIncludes o "default" = true)
    (hs : execOk env (Cmd.virshNetStart "default") = true) :
    ensureDefaultNetwork env =
      (Except.ok (), [Cmd.virshNetList, Cmd.virshNetStart "default"]) := by
  unfold ensureDefaultNetwork
  rw [ednTry_of_contains env o e hlist hd]
  unfold execOk at hs
  cases hx : env.exec (Cmd.virshNetStart "default") with
  | success o2 e2 => rfl
  | failure m =>
      rw [hx] at hs
      simp at hs

/-- An environment where every command succeeds, the network list already
shows an active "default" network, and the cloud image is present. -/
def envHappy : Env where
  exec := fun c =>
    match c with
    | Cmd.virshNetList => ExecOut.success " default              active   yes" ""
    | _ => ExecOut.success "" ""
  cloudImageExists := true
  random := fun _ => 0

/-- C4: for all valid inputs (memory, cpus, diskGB positive), every command
sequence the create endpoint emits issues a disk-provisioning command
(cloud-image copy / resize or blank qcow2 creation) before any
domain-definition or VM-import command, whichever strategy runs. -/
theorem create_disk_provision_before_domain_define (env : Env) (name : String)
    (memory cpus diskGB : Nat) (hm : 0 < memory) (hc : 0 < cpus) (hd : 0 < diskGB) :
    Ordered (createVMHandler env name memory cpus diskGB).2 := by
  unfold createVMHandler
  rcases hP : createVMWithCloudImage env name memory cpus diskGB (vmDiskPath name) with ⟨rP, tP⟩
  have hPo : Ordered tP := by
    have h := cvci_ordered env name memory cpus diskGB (vmDiskPath name)
    rwa [hP] at h
  cases rP with
  | ok _ => exact hPo
  | error m =>
      rcases hS : createSimpleVM env name memory cpus diskGB (vmDiskPath name) with ⟨rS, tS⟩
      have hSo : Ordered tS := by
        have h := simple_ordered env name memory cpus diskGB (vmDiskPath name)
        rwa [hS] at h
      cases rS with
      | ok _ => exact ordered_append hPo hSo
      | error m2 => exact ordered_append hPo hSo

theorem create_disk_provision_before_domain_define_witness :
    0 < 1024 ∧ 0 < 1 ∧ 0 < 20 ∧ Ordered (createVMHandler envHappy "web1" 1024 1 20).2 :=
  ⟨by decide, by decide, by decide,
   create_disk_provision_before_domain_define envHappy "web1" 1024 1 20
     (by decide) (by decide) (by decide)⟩

/-- C6: a lifecycle request whose action is outside
start/stop/shutdown/reboot/suspend/resume is rejected with 400 "Invalid
action" and an empty command trace: no hypervisor call is made. -/
theorem invalid_action_rejected_before_exec (env : Env) (vmName action : String)
    (h : validActions.contains action = false) :
    vmActionHandler env vmName action = (Resp.badRequest "Invalid action", []) := by
  unfold vmActionHandler
  rw [h]
  simp

theorem invalid_action_rejected_before_exec_witness :
    validActions.contains "destroy" = false ∧
    vmActionHandler envHappy "web1" "destroy" = (Resp.badRequest "Invalid action", []) :=
  ⟨by decide, invalid_action_rejected_before_exec envHappy "web1" "destroy" (by decide)⟩

/-- C7: when the virsh lifecycle call exits zero, the handler reports failure
exactly when stderr is nonempty and contains none of "Domain", "started",
"stopped"; an empty stderr or one containing any of them yields success. -/
theorem action_stderr_heuristic (env : Env) (vmName action out err : String)
    (hv : validActions.contains action = true)
    (hx : env.exec (Cmd.virshDo action vmName) = ExecOut.success out err) :
    ((vmActionHandler env vmName action).1 = Resp.serverError err ↔
      (err ≠ "" ∧ jsIncludes err "Domain" = false ∧ jsIncludes err "started" = false ∧
       jsIncludes err "stopped" = false)) ∧
    ((err = "" ∨ jsIncludes err "Domain" = true ∨ jsIncludes err "started" = true ∨
      jsIncludes err "stopped" = true) →
      (vmActionHandler env vmName action).1 =
        Resp.ok ("VM " ++ vmName ++ " " ++ action ++ "ed successfully")) := by
  unfold vmActionHandler
  rw [hv]
  simp only [if_true]
  rw [hx]
  by_cases he : err = "" <;> by_cases hD : jsIncludes err "Domain" = true <;>
    by_cases h1 : jsIncludes err "started" = true <;>
    by_cases h2 : jsIncludes err "stopped" = true <;>
    simp_all

def envNoise : Env where
  exec := fun _ => ExecOut.success "" "some unexpected warning"
  cloudImageExists := true
  random := fun _ => 0

theorem action_stderr_heuristic_witness :
    validActions.contains "start" = true ∧
    (vmActionHandler envNoise "vm1" "start").1 = Resp.serverError "some unexpected warning" :=
  ⟨by decide,
   ((action_stderr_heuristic envNoise "vm1" "start" "" "some unexpected warning"
      (by decide) rfl).1).mpr (by decide)⟩

/-- C3: when the primary cloud-image strategy succeeds, the fallback is never
invoked (the handler returns the primary trace unchanged, which contains no
blank-disk creation and no virsh define); when it fails, the handler runs
`createSimpleVM` exactly once with the same name, memory, cpus, diskSize and
per-VM disk path, appending exactly its trace. -/
theorem fallback_invoked_once_same_args (env : Env) (name : String)
    (memory cpus diskGB : Nat) :
    (∀ t, createVMWithCloudImage env name memory cpus diskGB (vmDiskPath name) =
        (Except.ok (), t) →
      createVMHandler env name memory cpus diskGB =
        (Resp.ok ("VM " ++ name ++ " created successfully"), t) ∧
      (∀ p s, Cmd.qemuImgCreate p s ∉ t) ∧ (∀ f, Cmd.virshDefine f ∉ t)) ∧
    (∀ msg t, createVMWithCloudImage env name memory cpus diskGB (vmDiskPath name) =
        (Except.error msg, t) →
      createVMHandler env name memory cpus diskGB =
        ((match (createSimpleVM env name memory cpus diskGB (vmDiskPath name)).1 with
          | Except.ok _ => Resp.ok ("VM " ++ name ++ " created successfully")
          | Except.error m2 => Resp.serverError m2),
         t ++ (createSimpleVM env name memory cpus diskGB (vmDiskPath name)).2)) := by
  constructor
  · intro t h
    refine ⟨?_, ?_, ?_⟩
    · unfold createVMHandler
      rw [h]
    · intro p s hmem
      have h2 := cvci_mem env name memory cpus diskGB (vmDiskPath name)
        (Cmd.qemuImgCreate p s) (by rw [h]; exact hmem)
      simp [cvciAllowed, ednAllowed] at h2
    · intro f hmem
      have h2 := cvci_mem env name memory cpus diskGB (vmDiskPath name)
        (Cmd.virshDefine f) (by rw [h]; exact hmem)
      simp [cvciAllowed, ednAllowed] at h2
  · intro msg t h
    unfold createVMHandler
    rw [h]
    rcases hS : createSimpleVM env name memory cpus diskGB (vmDiskPath name) with ⟨rS, tS⟩
    cases rS <;> simp

/-- Environment where the first mkdir fails, so the primary strategy aborts
immediately and the fallback runs under an otherwise happy world. -/
def envMkdirFail : Env where
  exec := fun c =>
    match c with
    | Cmd.mkdirP _ => ExecOut.failure "boom"
    | Cmd.virshNetList => ExecOut.success " default              active   yes" ""
    | _ => ExecOut.success "" ""
  cloudImageExists := true
  random := fun _ => 0

theorem fallback_invoked_once_same_args_witness :
    createVMHandler envMkdirFail "w" 2 1 5 =
      (Resp.ok "VM w created successfully",
       [Cmd.mkdirP cloudImagePath, Cmd.virshNetList, Cmd.virshNetStart "default",
        Cmd.qemuImgCreate (vmDiskPath "w") 5, Cmd.virshDefine "/tmp/w.xml",
        Cmd.rmF "/tmp/w.xml"]) := by
  have h := (fallback_invoked_once_same_args envMkdirFail "w" 2 1 5).2 "boom"
    [Cmd.mkdirP cloudImagePath] (by decide)
  exact h.trans (by decide)

/-- Environment where undefine fails (VM not defined) and everything else
succeeds. -/
def envUndefFail : Env where
  exec := fun c =>
    match c with
    | Cmd.virshUndefine _ => ExecOut.failure "error: failed to get domain gone"
    | _ => ExecOut.success "" ""
  cloudImageExists := true
  random := fun _ => 0

/-- C5 counterexample: when the undefine step fails, the delete handler stops
there — the disk-removal command is never issued, so it is not the case that
all three steps are attempted regardless of earlier failures (and the
disk-removal error, had it run, would also not be swallowed: see the amended
theorem). -/
theorem delete_not_all_attempted_cex :
    deleteVMHandler envUndefFail "gone" =
      (Resp.serverError "error: failed to get domain gone",
       [Cmd.virshDestroy "gone", Cmd.virshUndefine "gone"]) ∧
    (deleteVMHandler envUndefFail "gone").2.countP isRmF = 0 :=
  ⟨by decide, by decide⟩

/-- C5 amended: delete always issues force-stop first and undefine second (the
force-stop's own failure is swallowed by the shell's `|| true`); the
disk-removal command runs exactly when undefine succeeds; an undefine failure
is returned as the 500 error and skips disk removal; a disk-removal failure is
also returned as the 500 error (only missing-file cases are suppressed, by the
rm -f flag itself). -/
theorem delete_order_amended (env : Env) (name : String) :
    (deleteVMHandler env name).2.take 2 = [Cmd.virshDestroy name, Cmd.virshUndefine name] ∧
    (execOk env (Cmd.virshUndefine name) = true →
      (deleteVMHandler env name).2 =
        [Cmd.virshDestroy name, Cmd.virshUndefine name, Cmd.rmF (vmDiskPath name)]) ∧
    (∀ m, env.exec (Cmd.virshUndefine name) = ExecOut.failure m →
      deleteVMHandler env name =
        (Resp.serverError m, [Cmd.virshDestroy name, Cmd.virshUndefine name])) ∧
    (∀ m o e, env.exec (Cmd.virshUndefine name) = ExecOut.success o e →
      env.exec (Cmd.rmF (vmDiskPath name)) = ExecOut.failure m →
      (deleteVMHandler env name).1 = Resp.serverError m) := by
  refine ⟨?_, ?_, ?_, ?_⟩
  · unfold deleteVMHandler
    cases hU : env.exec (Cmd.virshUndefine name) with
    | success o e => cases hR : env.exec (Cmd.rmF (vmDiskPath name)) <;> rfl
    | failure m => rfl
  · intro h
    unfold execOk at h
    unfold deleteVMHandler
    cases hU : env.exec (Cmd.virshUndefine name) with
    | success o e => cases hR : env.exec (Cmd.rmF (vmDiskPath name)) <;> rfl
    | failure m =>
        rw [hU] at h
        simp at h
  · intro m hm
    unfold deleteVMHandler
    rw [hm]
    rfl
  · intro m o e ho hm
    unfold deleteVMHandler
    rw [ho, hm]

theorem delete_order_amended_witness :
    execOk envHappy (Cmd.virshUndefine "vm1") = true ∧
    (deleteVMHandler envHappy "vm1").2 =
      [Cmd.virshDestroy "vm1", Cmd.virshUndefine "vm1", Cmd.rmF (vmDiskPath "vm1")] :=
  ⟨by decide, (delete_order_amended envHappy "vm1").2.1 (by decide)⟩

/-- Environment for the "ghost" deletion scenario: the underlying force-stop
and the undefine both fail (the VM does not exist). -/
def envGhost : Env where
  exec := fun c =>
    match c with
    | Cmd.virshDestroy _ => ExecOut.failure "error: failed to destroy domain"
    | Cmd.virshUndefine _ => ExecOut.failure "error: failed to get domain ghost"
    | _ => ExecOut.success "" ""
  cloudImageExists := true
  random := fun _ => 0

/-- C8 counterexample: deleting the nonexistent VM "ghost" does issue the
force-stop (its failure neutralized by `|| true`) and then the undefine whose
message is surfaced verbatim as the 500 error — but the disk-removal step is
NOT executed: the trace ends at the undefine and contains no rm command. -/
theorem delete_ghost_rm_not_executed_cex :
    envGhost.exec (Cmd.virshDestroy "ghost") = ExecOut.failure "error: failed to destroy domain" ∧
    envGhost.exec (Cmd.virshUndefine "ghost") = ExecOut.failure "error: failed to get domain ghost" ∧
    deleteVMHandler envGhost "ghost" =
      (Resp.serverError "error: failed to get domain ghost",
       [Cmd.virshDestroy "ghost", Cmd.virshUndefine "ghost"]) ∧
    (deleteVMHandler envGhost "ghost").2.countP isRmF = 0 :=
  ⟨rfl, rfl, by decide, by decide⟩

/-- C8 amended: for a delete of a VM whose force-stop and undefine both fail,
the force-stop command is still issued first (its failure neutralized at shell
level by `|| true`), then the undefine is issued and its error message is the
500 response verbatim; the disk-removal step is not reached. -/
theorem delete_ghost_amended (env : Env) (name mDestroy mUndef : String)
    (_hdes : env.exec (Cmd.virshDestroy name) = ExecOut.failure mDestroy)
    (hund : env.exec (Cmd.virshUndefine name) = ExecOut.failure mUndef) :
    deleteVMHandler env name =
      (Resp.serverError mUndef, [Cmd.virshDestroy name, Cmd.virshUndefine name]) := by
  unfold deleteVMHandler
  rw [hund]
  rfl

theorem delete_ghost_amended_witness :
    deleteVMHandler envGhost "ghost" =
      (Resp.serverError "error: failed to get domain ghost",
       [Cmd.virshDestroy "ghost", Cmd.virshUndefine "ghost"]) :=
  delete_ghost_amended envGhost "ghost" "error: failed to destroy domain"
    "error: failed to get domain ghost" rfl rfl

lemma createVMHandler_mem (env : Env) (name : String) (memory cpus diskGB : Nat) :
    ∀ c ∈ (createVMHandler env name memory cpus diskGB).2,
      c ∈ cvciAllowed name memory cpus diskGB (vmDiskPath name) ∨
      c ∈ simpleAllowed name diskGB (vmDiskPath name) := by
  intro c hc
  unfold createVMHandler at hc
  rcases hP : createVMWithCloudImage env name memory cpus diskGB (vmDiskPath name) with ⟨rP, tP⟩
  rw [hP] at hc
  have hPm : ∀ x ∈ tP, x ∈ cvciAllowed name memory cpus diskGB (vmDiskPath name) := by
    intro x hx
    exact cvci_mem env name memory cpus diskGB (vmDiskPath name) x (by rw [hP]; exact hx)
  cases rP with
  | ok _ => exact Or.inl (hPm c hc)
  | error m =>
      rcases hS : createSimpleVM env name memory cpus diskGB (vmDiskPath name) with ⟨rS, tS⟩
      rw [hS] at hc
      have hSm : ∀ x ∈ tS, x ∈ simpleAllowed name diskGB (vmDiskPath name) := by
        intro x hx
        exact simple_mem env name memory cpus diskGB (vmDiskPath name) x (by rw [hS]; exact hx)
      cases rS with
      | ok _ =>
          rcases List.mem_append.mp hc with h | h
          · exact Or.inl (hPm c h)
          · exact Or.inr (hSm c h)
      | error _ =>
          rcases List.mem_append.mp hc with h | h
          · exact Or.inl (hPm c h)
          · exact Or.inr (hSm c h)

/-- C10: both creation strategies provision the per-VM disk only at
/var/lib/libvirt/images/NAME.qcow2 (every copy, resize or blank-creation
command in any create trace targets exactly that path), and the delete handler
removes exactly that same path — so delete removes what create provisioned. -/
theorem create_delete_agree_on_disk_path (envC envD : Env) (name : String)
    (memory cpus diskGB : Nat) :
    (∀ src dst, Cmd.cp src dst ∈ (createVMHandler envC name memory cpus diskGB).2 →
      dst = vmDiskPath name) ∧
    (∀ p s, Cmd.qemuImgResize p s ∈ (createVMHandler envC name memory cpus diskGB).2 →
      p = vmDiskPath name) ∧
    (∀ p s, Cmd.qemuImgCreate p s ∈ (createVMHandler envC name memory cpus diskGB).2 →
      p = vmDiskPath name) ∧
    (∀ p, Cmd.rmF p ∈ (deleteVMHandler envD name).2 → p = vmDiskPath name) := by
  refine ⟨?_, ?_, ?_, ?_⟩
  · intro src dst hmem
    rcases createVMHandler_mem envC name memory cpus diskGB _ hmem with h | h <;>
      simp [cvciAllowed, simpleAllowed, ednAllowed] at h
    tauto
  · intro p s hmem
    rcases createVMHandler_mem envC name memory cpus diskGB _ hmem with h | h <;>
      simp [cvciAllowed, simpleAllowed, ednAllowed] at h
    tauto
  · intro p s hmem
    rcases createVMHandler_mem envC name memory cpus diskGB _ hmem with h | h <;>
      simp [cvciAllowed, simpleAllowed, ednAllowed] at h
    tauto
  · intro p hmem
    unfold deleteVMHandler at hmem
    cases hU : envD.exec (Cmd.virshUndefine name) with
    | success o e =>
        rw [hU] at hmem
        cases hR : envD.exec (Cmd.rmF (vmDiskPath name)) with
        | success o2 e2 =>
            rw [hR] at hmem
            simp at hmem
            exact hmem
        | failure m =>
            rw [hR] at hmem
            simp at hmem
            exact hmem
    | failure m =>
        rw [hU] at hmem
        simp at hmem

theorem create_delete_agree_on_disk_path_witness :
    Cmd.rmF (vmDiskPath "web1") ∈ (deleteVMHandler envHappy "web1").2 ∧
    vmDiskPath "web1" = vmDiskPath "web1" :=
  ⟨by decide,
   (create_delete_agree_on_disk_path envHappy envHappy "web1" 1024 1 20).2.2.2
     (vmDiskPath "web1") (by decide)⟩

/-- Commands that mutate hypervisor or disk state other than the four the C1
scenario allows (image copy, resize, ISO build, import): network define,
blank-disk creation, domain define, destroy, undefine and lifecycle calls.
The redundant net-start the code also issues is counted separately. -/
def isOtherMutating : Cmd → Bool
  | Cmd.virshNetDefine _ => true
  | Cmd.qemuImgCreate _ _ => true
  | Cmd.virshDefine _ => true
  | Cmd.virshDestroy _ => true
  | Cmd.virshUndefine _ => true
  | Cmd.virshDo _ _ => true
  | _ => false

/-- A hypervisor whose network list already shows an active "default" network
and which therefore — like real virsh — rejects a redundant net-start of that
active network; everything else succeeds and the cloud image is present. -/
def envActiveDefault : Env where
  exec := fun c =>
    match c with
    | Cmd.virshNetList => ExecOut.success " default              active   yes" ""
    | Cmd.virshNetStart _ => ExecOut.failure "error: network is already active"
    | _ => ExecOut.success "" ""
  cloudImageExists := true
  random := fun _ => 0

/-- C1 counterexample: on a host where the cloud image exists and the network
list already shows an active "default" network, create("web1",1024,1,20) does
NOT issue one disk-copy/resize/ISO/import and succeed: `ensureDefaultNetwork`
unconditionally runs net-start, which the hypervisor rejects for an active
network, so both strategies abort in network setup — the response is a 500 and
no disk-copy or import command is ever issued. -/
theorem create_web1_scenario_cex :
    envActiveDefault.cloudImageExists = true ∧
    envActiveDefault.exec Cmd.virshNetList =
      ExecOut.success " default              active   yes" "" ∧
    jsIncludes " default              active   yes" "default" = true ∧
    jsIncludes " default              active   yes" "active" = true ∧
    (createVMHandler envActiveDefault "web1" 1024 1 20).1 =
      Resp.serverError "Failed to setup default network" ∧
    (createVMHandler envActiveDefault "web1" 1024 1 20).2.countP isDiskCopy = 0 ∧
    (createVMHandler envActiveDefault "web1" 1024 1 20).2.countP isVmImport = 0 :=
  ⟨rfl, rfl, by decide, by decide, by decide, by decide, by decide⟩

/-- C1 amended: in the web1 scenario (cloud image present, network list
containing an active "default"), PROVIDED the hypervisor accepts the redundant
net-start of the active network, the create endpoint issues exactly the
cache-directory mkdir, the network-list query, one net-start, one disk-copy,
one disk-resize, the cloud-init mkdir, one ISO build and one VM import — in
that order — and returns a success response; in particular exactly one
disk-copy, one resize, one ISO build, one import, and no network-define,
blank-disk, domain-define, destroy, undefine or lifecycle command. -/
theorem create_web1_happy_amended (env : Env) (o e : String)
    (hci : env.cloudImageExists = true)
    (hlist : env.exec Cmd.virshNetList = ExecOut.success o e)
    (hdef : jsIncludes o "default" = true)
    (hact : jsIncludes o "active" = true)
    (h1 : execOk env (Cmd.mkdirP cloudImagePath) = true)
    (h2 : execOk env (Cmd.virshNetStart "default") = true)
    (h3 : execOk env (Cmd.cp cloudImage (vmDiskPath "web1")) = true)
    (h4 : execOk env (Cmd.qemuImgResize (vmDiskPath "web1") 20) = true)
    (h5 : execOk env (Cmd.mkdirP (cloudInitDir "web1")) = true)
    (h6 : execOk env (Cmd.genisoimage (cloudInitDir "web1")) = true)
    (h7 : execOk env (Cmd.virtInstall "web1" 1024 1 (vmDiskPath "web1")
      (cloudInitDir "web1" ++ ".iso")) = true) :
    createVMHandler env "web1" 1024 1 20 =
      (Resp.ok "VM web1 created successfully",
       [Cmd.mkdirP cloudImagePath, Cmd.virshNetList, Cmd.virshNetStart "default",
        Cmd.cp cloudImage (vmDiskPath "web1"), Cmd.qemuImgResize (vmDiskPath "web1") 20,
        Cmd.mkdirP (cloudInitDir "web1"), Cmd.genisoimage (cloudInitDir "web1"),
        Cmd.virtInstall "web1" 1024 1 (vmDiskPath "web1") (cloudInitDir "web1" ++ ".iso")]) ∧
    (createVMHandler env "web1" 1024 1 20).2.countP isDiskCopy = 1 ∧
    (createVMHandler env "web1" 1024 1 20).2.countP isDiskResize = 1 ∧
    (createVMHandler env "web1" 1024 1 20).2.countP isIsoBuild = 1 ∧
    (createVMHandler env "web1" 1024 1 20).2.countP isVmImport = 1 ∧
    (createVMHandler env "web1" 1024 1 20).2.countP isOtherMutating = 0 := by
  obtain ⟨o1, e1, k1⟩ := run_of_ok h1
  have hedn := edn_ok_when_active env o e hlist hdef h2
  obtain ⟨o3, e3, k3⟩ := run_of_ok h3
  obtain ⟨o4, e4, k4⟩ := run_of_ok h4
  obtain ⟨o5, e5, k5⟩ := run_of_ok h5
  obtain ⟨o6, e6, k6⟩ := run_of_ok h6
  obtain ⟨o7, e7, k7⟩ := run_of_ok h7
  have hcvci : createVMWithCloudImage env "web1" 1024 1 20 (vmDiskPath "web1") =
      (Except.ok (),
       [Cmd.mkdirP cloudImagePath, Cmd.virshNetList, Cmd.virshNetStart "default",
        Cmd.cp cloudImage (vmDiskPath "web1"), Cmd.qemuImgResize (vmDiskPath "web1") 20,
        Cmd.mkdirP (cloudInitDir "web1"), Cmd.genisoimage (cloudInitDir "web1"),
        Cmd.virtInstall "web1" 1024 1 (vmDiskPath "web1") (cloudInitDir "web1" ++ ".iso")]) := by
    unfold createVMWithCloudImage wgetStep
    rw [hci]
    simp [bindE, k1, hedn, k3, k4, k5, k6, k7]
  have hh : createVMHandler env "web1" 1024 1 20 =
      (Resp.ok "VM web1 created successfully",
       [Cmd.mkdirP cloudImagePath, Cmd.virshNetList, Cmd.virshNetStart "default",
        Cmd.cp cloudImage (vmDiskPath "web1"), Cmd.qemuImgResize (vmDiskPath "web1") 20,
        Cmd.mkdirP (cloudInitDir "web1"), Cmd.genisoimage (cloudInitDir "web1"),
        Cmd.virtInstall "web1" 1024 1 (vmDiskPath "web1") (cloudInitDir "web1" ++ ".iso")]) := by
    unfold createVMHandler
    rw [hcvci]
    rfl
  refine ⟨hh, ?_, ?_, ?_, ?_, ?_⟩ <;> rw [hh] <;> decide

theorem create_web1_happy_amended_witness :
    createVMHandler envHappy "web1" 1024 1 20 =
      (Resp.ok "VM web1 created successfully",
       [Cmd.mkdirP cloudImagePath, Cmd.virshNetList, Cmd.virshNetStart "default",
        Cmd.cp cloudImage (vmDiskPath "web1"), Cmd.qemuImgResize (vmDiskPath "web1") 20,
        Cmd.mkdirP (cloudInitDir "web1"), Cmd.genisoimage (cloudInitDir "web1"),
        Cmd.virtInstall "web1" 1024 1 (vmDiskPath "web1") (cloudInitDir "web1" ++ ".iso")]) :=
  (create_web1_happy_amended envHappy " default              active   yes" "" rfl rfl
    (by decide) (by decide) rfl rfl rfl rfl rfl rfl rfl).1

/-- A hypervisor whose network list shows an inactive "default" network and
whose net-start fails; autostart succeeds. -/
def envStartFail : Env where
  exec := fun c =>
    match c with
    | Cmd.virshNetList => ExecOut.success " default              inactive no" ""
    | Cmd.virshNetStart _ => ExecOut.failure "error: failed to start network default"
    | _ => ExecOut.success "" ""
  cloudImageExists := true
  random := fun _ => 0

/-- C2 counterexample: when the network-list output contains "default" but the
start fails, `ensureDefaultNetwork` issues TWO start commands and one
autostart command (the catch block retries), so it does not issue "at most a
start command" — though indeed no define command. -/
theorem edn_more_than_one_start_cex :
    envStartFail.exec Cmd.virshNetList =
      ExecOut.success " default              inactive no" "" ∧
    jsIncludes " default              inactive no" "default" = true ∧
    (ensureDefaultNetwork envStartFail).2.countP isNetStart = 2 ∧
    Cmd.virshNetAutostart "default" ∈ (ensureDefaultNetwork envStartFail).2 ∧
    (ensureDefaultNetwork envStartFail).2.countP isNetDefine = 0 :=
  ⟨rfl, by decide, by decide, by decide, by decide⟩

/-- C2 amended: given the network-list query succeeds with output o, a
net-define is issued exactly when o lacks the substring "default"; when o
contains "default" no define is ever issued and only the list query, start and
autostart commands appear — exactly one start (after the query) when that
start succeeds, and otherwise additionally an autostart and a retried start
from the catch block. -/
theorem edn_define_iff_missing_amended (env : Env) (o e : String)
    (hlist : env.exec Cmd.virshNetList = ExecOut.success o e) :
    (Cmd.virshNetDefine netXmlFile ∈ (ensureDefaultNetwork env).2 ↔
      jsIncludes o "default" = false) ∧
    (jsIncludes o "default" = true →
      (∀ f, Cmd.virshNetDefine f ∉ (ensureDefaultNetwork env).2) ∧
      (∀ c ∈ (ensureDefaultNetwork env).2,
        c = Cmd.virshNetList ∨ c = Cmd.virshNetStart "default" ∨
        c = Cmd.virshNetAutostart "default") ∧
      (execOk env (Cmd.virshNetStart "default") = true →
        (ensureDefaultNetwork env).2 = [Cmd.virshNetList, Cmd.virshNetStart "default"])) := by
  constructor
  · constructor
    · intro hmem
      by_cases hd : jsIncludes o "default" = true
      · have h := edn_no_define_of_contains env o e hlist hd _ hmem
        rcases h with h | h | h <;> simp at h
      · simpa using hd
    · intro hd
      exact edn_define_of_not_contains env o e hlist hd
  · intro hd
    refine ⟨?_, edn_no_define_of_contains env o e hlist hd, ?_⟩
    · intro f hmem
      have h := edn_no_define_of_contains env o e hlist hd _ hmem
      rcases h with h | h | h <;> simp at h
    · intro hs
      rw [edn_ok_when_active env o e hlist hd hs]

theorem edn_define_iff_missing_amended_witness :
    jsIncludes " default              active   yes" "default" = true ∧
    execOk envHappy (Cmd.virshNetStart "default") = true ∧
    (ensureDefaultNetwork envHappy).2 = [Cmd.virshNetList, Cmd.virshNetStart "default"] :=
  ⟨by decide, by decide,
   ((edn_define_iff_missing_amended envHappy " default              active   yes" "" rfl).2
      (by decide)).2.2 (by decide)⟩

set_option maxRecDepth 100000 in
/-- C9: the per-octet MAC generator of the bare-disk strategy
(`Math.random().toString(16).substr(2, 2)`) does not always yield two hex
digits: for the achievable draw 0.5 (numerator 2^51 over 2^52) the hex string
is "0.8", the octet is the single character "8" (and for 0 it is empty), and
the generated domain XML then embeds the malformed MAC 52:54:00:8:8:8. -/
theorem mac_octet_malformed :
    (2 ^ 51 : Nat) < 2 ^ 52 ∧
    jsRandToHex (2 ^ 51) = "0.8" ∧
    macOctet (2 ^ 51) = "8" ∧
    (macOctet (2 ^ 51)).length < 2 ∧
    (macOctet 0).length = 0 ∧
    macAddress (2 ^ 51) (2 ^ 51) (2 ^ 51) = "52:54:00:8:8:8" ∧
    jsIncludes (simpleVMDomainXml "web1" 1024 1 (vmDiskPath "web1") (2 ^ 51) (2 ^ 51) (2 ^ 51))
      "<mac address='52:54:00:8:8:8'/>" = true :=
  ⟨by decide, by decide, by decide, by decide, by decide, by decide, by decide⟩
